import Mathlib

/-!
Shallow embedding of `pymc_marketing/mmm/validating.py` and of the saturation
transform registry (`pymc_marketing/mmm/components/saturation.py`, whose tests
are in the repository), together with theorems settling the specification
claims about them.

Machine-level conventions: tabular values are modelled as integers; a pandas
`DataFrame` is a finite association of column names to value lists; Python
exceptions are modelled by an explicit result type that also carries the
post-call state of the two objects a validator can see (`self` and `data`),
mirroring the fact that in Python both objects survive a raised exception.
-/

/-- Errors a validator can raise.  Each constructor corresponds to one
`raise ValueError(...)` site in `validating.py`, or to an error raised by
pandas itself while the validator body executes. -/
inductive VError where
  /-- "channel_columns must be a list or tuple" /
      "control_columns must be None, a list or tuple" -/
  | invalidType
  /-- "channel_columns must not be empty" /
      "If control_columns is not None, then it must not be empty" -/
  | emptyCollection
  /-- "target ... not in data" / "date_col ... not in data" /
      "channel_columns ... not in data" / "control_columns ... not in data" -/
  | missingColumn
  /-- "date_col ... has repeated values" / "... contains duplicates" -/
  | duplicateValues
  /-- "channel_columns ... contains negative values" -/
  | negativeValue
  /-- pandas `ValueError`: the truth value of a Series is ambiguous
      (raised by `bool()` applied to any Series, whatever its contents). -/
  | ambiguousTruthValue
  /-- pandas `KeyError`: a tuple used in `data[...]` is a single column key,
      which a flat column index does not contain. -/
  | keyError
  deriving DecidableEq, Repr

/-- Outcome of calling a Python method on state `σ`: either a normal return
(`ok`) or a propagating exception (`raised`).  In both cases the state the
caller still holds after the call is recorded. -/
inductive VResult (σ : Type) where
  | ok (s : σ)
  | raised (e : VError) (s : σ)
  deriving DecidableEq, Repr

/-- The state an outcome leaves behind. -/
def VResult.state {σ : Type} : VResult σ → σ
  | .ok s => s
  | .raised _ s => s

/-- A pandas `DataFrame`: an ordered association of column names to columns of
(integer) values. -/
structure DataFrame where
  cols : List (String × List Int)
  deriving DecidableEq, Repr

/-- `data.columns` — the column labels. -/
def DataFrame.columns (data : DataFrame) : List String :=
  data.cols.map Prod.fst

/-- The values stored under column `c` (empty if the column is absent). -/
def DataFrame.colValues (data : DataFrame) (c : String) : List Int :=
  (data.cols.lookup c).getD []

/-- A Python value that may or may not be an ordered sequence of strings, as
tested by `isinstance(x, (list, tuple))`. -/
inductive PySeq where
  | pylist (xs : List String)
  | pytuple (xs : List String)
  /-- any value that is neither a list nor a tuple -/
  | notSeq
  deriving DecidableEq, Repr

/-- `isinstance(x, (list, tuple))`. -/
def PySeq.isListOrTuple : PySeq → Bool
  | .pylist _ => true
  | .pytuple _ => true
  | .notSeq => false

/-- The elements of a list or tuple (`[]` on a non-sequence, unused there). -/
def PySeq.elems : PySeq → List String
  | .pylist xs => xs
  | .pytuple xs => xs
  | .notSeq => []

/-- pandas `(data[cs] < 0).any()` with the default axis: the comparison is
elementwise and `any` reduces each column, so the result is a Series holding
one Bool per selected column. -/
def anyNegPerColumn (data : DataFrame) (cs : List String) : List Bool :=
  cs.map (fun c => (data.colValues c).any (fun v => decide (v < 0)))

/-- pandas: `bool()` of a Series raises
`ValueError: The truth value of a Series is ambiguous...` unconditionally,
for every length and content, so no Bool is ever produced. -/
def seriesBool (_s : List Bool) : Option Bool :=
  none

/-- Host of `validate_target` (`ValidateTargetColumn` in `validating.py`). -/
structure ValidateTargetColumn where
  target_column : String
  deriving DecidableEq, Repr

/-- Host of `validate_date_col` (`ValidateDateColumn`). -/
structure ValidateDateColumn where
  date_column : String
  deriving DecidableEq, Repr

/-- Host of `validate_channel_columns` (`ValidateChannelColumns`). -/
structure ValidateChannelColumns where
  channel_columns : PySeq
  deriving DecidableEq, Repr

/-- Host of `validate_control_columns` (`ValidateControlColumns`); `none`
models the attribute being Python `None`. -/
structure ValidateControlColumns where
  control_columns : Option PySeq
  deriving DecidableEq, Repr

/-- `ValidateTargetColumn.validate_target`:
raises when `self.target_column not in data.columns`, otherwise returns. -/
def validate_target (self : ValidateTargetColumn) (data : DataFrame) :
    VResult (ValidateTargetColumn × DataFrame) :=
  if self.target_column ∉ data.columns then
    .raised .missingColumn (self, data)
  else
    .ok (self, data)

/-- `ValidateDateColumn.validate_date_col`:
raises when the date column is absent, then when
`data[self.date_column].is_unique` is false, otherwise returns. -/
def validate_date_col (self : ValidateDateColumn) (data : DataFrame) :
    VResult (ValidateDateColumn × DataFrame) :=
  if self.date_column ∉ data.columns then
    .raised .missingColumn (self, data)
  else if ¬ (data.colValues self.date_column).Nodup then
    .raised .duplicateValues (self, data)
  else
    .ok (self, data)

/-- `ValidateChannelColumns.validate_channel_columns`, statement by statement:
1. `isinstance(self.channel_columns, (list, tuple))` check;
2. `len(self.channel_columns) == 0` check;
3. `set(self.channel_columns).issubset(data.columns)` check;
4. `len(set(self.channel_columns)) != len(self.channel_columns)` check
   (true exactly when the sequence has a repeated element);
5. `if (data[self.channel_columns] < 0).any():` — indexing with a tuple makes
   pandas look the tuple up as one column key (`KeyError`); indexing with a
   list selects the columns, `< 0` and `.any()` produce a per-column Series,
   and the `if` applies `bool()` to that Series, which pandas rejects, so the
   `negativeValue` raise on the next line is unreachable. -/
def validate_channel_columns (self : ValidateChannelColumns) (data : DataFrame) :
    VResult (ValidateChannelColumns × DataFrame) :=
  if ¬ self.channel_columns.isListOrTuple then
    .raised .invalidType (self, data)
  else if self.channel_columns.elems.length = 0 then
    .raised .emptyCollection (self, data)
  else if ¬ (∀ c ∈ self.channel_columns.elems, c ∈ data.columns) then
    .raised .missingColumn (self, data)
  else if ¬ self.channel_columns.elems.Nodup then
    .raised .duplicateValues (self, data)
  else
    match self.channel_columns with
    | .pytuple _ => .raised .keyError (self, data)
    | _ =>
      match seriesBool (anyNegPerColumn data self.channel_columns.elems) with
      | some b =>
        if b then .raised .negativeValue (self, data) else .ok (self, data)
      | none => .raised .ambiguousTruthValue (self, data)

/-- `ValidateControlColumns.validate_control_columns`: returns at once on
`None`, otherwise performs the same four structural checks as the channel
validator and returns — there is no value check at all. -/
def validate_control_columns (self : ValidateControlColumns) (data : DataFrame) :
    VResult (ValidateControlColumns × DataFrame) :=
  match self.control_columns with
  | none => .ok (self, data)
  | some cc =>
    if ¬ cc.isListOrTuple then
      .raised .invalidType (self, data)
    else if cc.elems.length = 0 then
      .raised .emptyCollection (self, data)
    else if ¬ (∀ c ∈ cc.elems, c ∈ data.columns) then
      .raised .missingColumn (self, data)
    else if ¬ cc.elems.Nodup then
      .raised .duplicateValues (self, data)
    else
      .ok (self, data)

/-- A Python function object: `fnId` models object identity, `tags` models the
optional `_tags` attribute (a dict from tag name to Bool, in insertion
order). -/
structure Method where
  fnId : Nat
  tags : Option (List (String × Bool))
  deriving DecidableEq, Repr

/-- Python dict assignment `d[k] = v`: replace the value at an existing key in
place, otherwise append the new pair at the end. -/
def setTag (d : List (String × Bool)) (k : String) (v : Bool) :
    List (String × Bool) :=
  match d with
  | [] => [(k, v)]
  | (k0, v0) :: rest =>
    if k0 = k then (k, v) :: rest else (k0, v0) :: setTag rest k v

/-- `validation_method`: ensure the `_tags` attribute exists (an empty dict if
absent), set `_tags["validation"] = True`, and return the same function
object. -/
def validation_method (method : Method) : Method :=
  let tags0 := match method.tags with
    | none => []
    | some d => d
  { fnId := method.fnId, tags := some (setTag tags0 "validation" true) }

/-- A Python literal usable as a prior keyword argument or as a coordinate
label: a number or a string. -/
inductive PyVal where
  | num (n : Int)
  | str (s : String)
  deriving DecidableEq, Repr

/-- Modelled from the spec: a prior distribution is identified by its
distribution kind (`dist`) plus its keyword arguments; two priors are equal
iff both agree (spec section 3: "value-equal, including distribution kind and
keyword arguments").  The file `components/saturation.py` itself is not in
the repository snapshot, only its tests. -/
structure Prior where
  dist : String
  kwargs : List (String × PyVal)
  deriving DecidableEq, Repr

/-- Modelled from the spec: the seven registered saturation curves
(spec section 4.2's fixed name table). -/
inductive SaturationCurve where
  | logistic
  | inverse_scaled_logistic
  | tanh
  | tanh_baselined
  | michaelis_menten
  | hill
  | root
  deriving DecidableEq, Repr

/-- Modelled from the spec: the canonical registry key of each curve
(spec section 4.2). -/
def curveName : SaturationCurve → String
  | .logistic => "logistic"
  | .inverse_scaled_logistic => "inverse_scaled_logistic"
  | .tanh => "tanh"
  | .tanh_baselined => "tanh_baselined"
  | .michaelis_menten => "michaelis_menten"
  | .hill => "hill"
  | .root => "root"

/-- Modelled from the spec: each curve's default parameter-to-prior table
(spec section 3: "default_priors: mapping param_name -> Distribution"; each
curve has "its own parameter arity and default priors").  The spec attests
the parameter names `alpha` and `lam` of `michaelis_menten` through the
serialization round-trip test; the remaining names are placeholders for the
respective curve formulas and no claim depends on them. -/
def defaultPriors : SaturationCurve → List (String × Prior)
  | .logistic => [("lam", Prior.mk "Gamma" []), ("beta", Prior.mk "HalfNormal" [])]
  | .inverse_scaled_logistic =>
    [("lam", Prior.mk "Gamma" []), ("beta", Prior.mk "HalfNormal" [])]
  | .tanh => [("b", Prior.mk "HalfNormal" []), ("c", Prior.mk "HalfNormal" [])]
  | .tanh_baselined =>
    [("x0", Prior.mk "Gamma" []), ("gain", Prior.mk "HalfNormal" []),
     ("r", Prior.mk "HalfNormal" [])]
  | .michaelis_menten =>
    [("alpha", Prior.mk "Gamma" []), ("lam", Prior.mk "HalfNormal" [])]
  | .hill =>
    [("sigma", Prior.mk "HalfNormal" []), ("beta", Prior.mk "HalfNormal" []),
     ("lam", Prior.mk "Gamma" [])]
  | .root => [("alpha", Prior.mk "HalfNormal" []), ("beta", Prior.mk "HalfNormal" [])]

/-- Modelled from the spec: a saturation transform composes one curve with a
prior mapping and a display prefix (spec section 3).  Curve identity, the
prior mapping and the prefix are exactly the data transform equality compares. -/
structure SaturationTransform where
  curve : SaturationCurve
  priors : List (String × Prior)
  prefixName : String
  deriving DecidableEq, Repr

/-- Modelled from the spec: how given priors override the curve defaults —
each parameter keeps its default prior unless the override mapping names it
(spec section 4.6: "leaving unmentioned parameters at curve defaults"). -/
def mergePriors (defaults overrides : List (String × Prior)) :
    List (String × Prior) :=
  defaults.map (fun kv =>
    match overrides.lookup kv.1 with
    | some p => (kv.1, p)
    | none => kv)

/-- Modelled from the spec: direct construction of a transform from a curve
and a prior-override mapping; the prefix defaults to "saturation" (spec
section 3 and the tests' `test_default_prefix`). -/
def mkTransform (c : SaturationCurve) (overrides : List (String × Prior)) :
    SaturationTransform :=
  { curve := c, priors := mergePriors (defaultPriors c) overrides,
    prefixName := "saturation" }

/-- Modelled from the spec: the default-constructed transform for a curve —
no prior overridden. -/
def defaultTransform (c : SaturationCurve) : SaturationTransform :=
  mkTransform c []

/-- Modelled from the spec: the registry's name table, in the order the spec
lists the canonical names (spec section 4.2). -/
def saturationLookup : List (String × SaturationCurve) :=
  [("logistic", .logistic),
   ("inverse_scaled_logistic", .inverse_scaled_logistic),
   ("tanh", .tanh),
   ("tanh_baselined", .tanh_baselined),
   ("michaelis_menten", .michaelis_menten),
   ("hill", .hill),
   ("root", .root)]

/-- Errors of the transform domain (spec section 7). -/
inductive TransformError where
  /-- "Unknown saturation function: {key}. Choose from ..." — carries the
      offending key and the enumerated valid names. -/
  | unknownTransform (key : String) (valid : List String)
  /-- non-positive `max_value` rejected eagerly by `sample_curve` -/
  | invalidConfiguration
  /-- a parameter variable of the transform is absent from the dataset
      (selection failure) -/
  | missingVariable
  deriving DecidableEq, Repr

/-- The argument of `_get_saturation_function`: a name or an instance. -/
inductive SaturationKey where
  | name (s : String)
  | inst (t : SaturationTransform)
  deriving DecidableEq, Repr

/-- Modelled from the spec: `_get_saturation_function` — an instance is passed
through unchanged; a string is looked up case-sensitively, a hit yields the
default-constructed transform, a miss fails with the error enumerating the
valid names (spec section 4.2). -/
def _get_saturation_function (key : SaturationKey) :
    Except TransformError SaturationTransform :=
  match key with
  | .inst t => .ok t
  | .name s =>
    match saturationLookup.lookup s with
    | some c => .ok (defaultTransform c)
    | none => .error (.unknownTransform s (saturationLookup.map Prod.fst))

/-- A serialized prior: `{"dist": ..., "kwargs": {...}}`. -/
structure SerializedPrior where
  dist : String
  kwargs : List (String × PyVal)
  deriving DecidableEq, Repr

/-- Modelled from the spec: deserializing a prior freshly constructs the
distribution from `dist` + `kwargs` (spec section 4.6). -/
def priorFromSerialized (p : SerializedPrior) : Prior :=
  { dist := p.dist, kwargs := p.kwargs }

/-- The argument of `saturation_from_dict`:
`{"lookup_name": ..., "priors": {...}}`. -/
structure SaturationDict where
  lookup_name : String
  priors : List (String × SerializedPrior)
  deriving DecidableEq, Repr

/-- Modelled from the spec: `saturation_from_dict` resolves `lookup_name` via
the registry, then overrides each named parameter's prior with the
deserialized distribution, leaving unmentioned parameters at curve defaults
(spec section 4.6). -/
def saturation_from_dict (d : SaturationDict) :
    Except TransformError SaturationTransform :=
  match _get_saturation_function (.name d.lookup_name) with
  | .error e => .error e
  | .ok t =>
    .ok { t with
          priors := mergePriors t.priors
            (d.priors.map (fun kv => (kv.1, priorFromSerialized kv.2))) }

/-- Modelled from the spec: `variable_mapping` derives one model variable name
per parameter, `param_name -> prefix ++ "_" ++ param_name` (spec section 3). -/
def variable_mapping (t : SaturationTransform) : List (String × String) :=
  t.priors.map (fun kv => (kv.1, t.prefixName ++ "_" ++ kv.1))

/-- The variable names `variable_mapping.values()`. -/
def variableMappingValues (t : SaturationTransform) : List String :=
  (variable_mapping t).map Prod.snd

/-- An xarray `Dataset`, reduced to the structure `sample_curve`'s dimension
bookkeeping reads: each data variable's name and dimension tuple, plus the
coordinate labels per dimension.  The numeric contents of the variables are
irrelevant to the dimension-propagation claims and are abstracted away. -/
structure Dataset where
  vars : List (String × List String)
  coords : List (String × List PyVal)
  deriving DecidableEq, Repr

/-- The names of the data variables of a dataset. -/
def Dataset.varNames (P : Dataset) : List String :=
  P.vars.map Prod.fst

/-- An xarray `DataArray`, reduced likewise to name, dimension tuple and
coordinates. -/
structure DataArray where
  name : String
  dims : List String
  coords : List (String × List PyVal)
  deriving DecidableEq, Repr

/-- The transform's own parameter variables present in the dataset: the
selection `parameters[self.variable_mapping.values()]`, which drops every
unrelated variable. -/
def relevantVars (t : SaturationTransform) (P : Dataset) :
    List (String × List String) :=
  P.vars.filter (fun kv => decide (kv.1 ∈ variableMappingValues t))

/-- The dimensions carried by the transform's own parameter variables, without
repetition. -/
def curveDims (t : SaturationTransform) (P : Dataset) : List String :=
  ((relevantVars t P).flatMap Prod.snd).dedup

/-- Modelled from the spec: the curve array `sample_curve` returns — named
after the transform's prefix, its dimensions are those of the transform's own
parameter variables followed by the evaluation-grid dimension "x", and each of
those dimensions keeps the coordinate labels the input dataset assigned to it
(spec sections 3 and 4.5).  The grid's numeric values (evenly spaced from 0 to
`max_value`) are abstracted away. -/
def curveDataArray (t : SaturationTransform) (P : Dataset) : DataArray :=
  { name := t.prefixName,
    dims := curveDims t P ++ ["x"],
    coords := (curveDims t P).filterMap
      (fun d => (P.coords.lookup d).map (fun vs => (d, vs))) }

/-- Modelled from the spec: `sample_curve` — a non-positive `max_value` is
rejected eagerly; a parameter variable missing from the dataset makes the
selection fail; otherwise the curve array is produced, with every unrelated
variable silently ignored (spec section 4.5). -/
def sample_curve (t : SaturationTransform) (parameters : Dataset)
    (max_value : Int) : Except TransformError DataArray :=
  if max_value ≤ 0 then
    .error .invalidConfiguration
  else if ∀ v ∈ variableMappingValues t, v ∈ parameters.varNames then
    .ok (curveDataArray t parameters)
  else
    .error .missingVariable

/-- The parameter dataset of the tests' `mock_menten_parameters_with_additional_dim`
fixture: the transform's two variables carry `(chain, draw, channel)` and an
unrelated variable additionally carries `random_dim`. -/
def mockMentenParameters : Dataset :=
  { vars :=
      [("saturation_alpha", ["chain", "draw", "channel"]),
       ("saturation_lam", ["chain", "draw", "channel"]),
       ("another_random_variable", ["chain", "draw", "channel", "random_dim"])],
    coords :=
      [("chain", [.num 0]), ("draw", [.num 0, .num 1]),
       ("channel", [.str "C1", .str "C2", .str "C3"]),
       ("random_dim", [.str "R1", .str "R2"])] }

theorem lookup_cons_help {β : Type} (x k : String) (b : β) (rest : List (String × β)) :
    List.lookup x ((k, b) :: rest) = if x = k then some b else List.lookup x rest := by
  by_cases h : x = k
  · simp [List.lookup, h]
  · have hbe : (x == k) = false := by simp [h]
    simp [List.lookup, hbe, h]

theorem lookup_eq_none_of_not_mem_keys {β : Type} (x : String) (l : List (String × β))
    (hx : x ∉ l.map Prod.fst) : l.lookup x = none := by
  induction l with
  | nil => rfl
  | cons kv rest ih =>
    simp only [List.map_cons, List.mem_cons] at hx
    push_neg at hx
    rw [show kv = (kv.1, kv.2) from rfl, lookup_cons_help, if_neg hx.1]
    exact ih hx.2

theorem lookup_keyed_filterMap_of_not_mem {β : Type} (f : String → Option β)
    (l : List String) (x : String) (hx : x ∉ l) :
    (l.filterMap (fun a => (f a).map (fun b => (a, b)))).lookup x = none := by
  induction l with
  | nil => rfl
  | cons a rest ih =>
    simp only [List.mem_cons] at hx
    push_neg at hx
    cases hfa : f a with
    | none =>
      simp only [List.filterMap_cons, hfa, Option.map_none']
      exact ih hx.2
    | some b =>
      simp only [List.filterMap_cons, hfa, Option.map_some']
      rw [lookup_cons_help, if_neg hx.1]
      exact ih hx.2

theorem lookup_keyed_filterMap_of_mem {β : Type} (f : String → Option β)
    (l : List String) (x : String) (hl : l.Nodup) (hx : x ∈ l) :
    (l.filterMap (fun a => (f a).map (fun b => (a, b)))).lookup x = f x := by
  induction l with
  | nil => cases hx
  | cons a rest ih =>
    rcases List.mem_cons.mp hx with h | h
    · subst h
      cases hfa : f x with
      | none =>
        simp only [List.filterMap_cons, hfa, Option.map_none']
        exact lookup_keyed_filterMap_of_not_mem f rest x (List.nodup_cons.mp hl).1
      | some b =>
        simp only [List.filterMap_cons, hfa, Option.map_some']
        rw [lookup_cons_help, if_pos rfl]
    · have hne : x ≠ a := fun he => (List.nodup_cons.mp hl).1 (he ▸ h)
      cases hfa : f a with
      | none =>
        simp only [List.filterMap_cons, hfa, Option.map_none']
        exact ih (List.nodup_cons.mp hl).2 h
      | some b =>
        simp only [List.filterMap_cons, hfa, Option.map_some']
        rw [lookup_cons_help, if_neg hne]
        exact ih (List.nodup_cons.mp hl).2 h

/-- C8: `validate_target` raises `MissingColumn` exactly when the target
column is absent from the input's column set, and returns normally when the
column is present, whatever the column's values are. -/
theorem C8_validate_target_missing_iff (self : ValidateTargetColumn)
    (data : DataFrame) :
    (validate_target self data = .raised .missingColumn (self, data) ↔
      self.target_column ∉ data.columns) ∧
    (self.target_column ∈ data.columns →
      validate_target self data = .ok (self, data)) := by
  by_cases h : self.target_column ∈ data.columns <;> simp [validate_target, h]

/-- C8 witness: at a concrete host and table lacking the target column, the
validator raises `MissingColumn`; with the column present it returns. -/
theorem C8_witness :
    validate_target ⟨"y"⟩ ⟨[("x", [1])]⟩ =
      .raised .missingColumn (⟨"y"⟩, ⟨[("x", [1])]⟩) ∧
    validate_target ⟨"y"⟩ ⟨[("y", [1])]⟩ = .ok (⟨"y"⟩, ⟨[("y", [1])]⟩) :=
  ⟨(C8_validate_target_missing_iff ⟨"y"⟩ ⟨[("x", [1])]⟩).1.mpr (by decide),
   (C8_validate_target_missing_iff ⟨"y"⟩ ⟨[("y", [1])]⟩).2 (by decide)⟩

/-- C6: `validate_date_col` raises `MissingColumn` when the date column is
absent; when the column is present it raises `DuplicateValues` exactly when
the column's values are not all distinct, and otherwise returns normally. -/
theorem C6_validate_date_col_cases (self : ValidateDateColumn)
    (data : DataFrame) :
    (self.date_column ∉ data.columns →
      validate_date_col self data = .raised .missingColumn (self, data)) ∧
    (self.date_column ∈ data.columns →
      (validate_date_col self data = .raised .duplicateValues (self, data) ↔
        ¬ (data.colValues self.date_column).Nodup)) ∧
    (self.date_column ∈ data.columns → (data.colValues self.date_column).Nodup →
      validate_date_col self data = .ok (self, data)) := by
  by_cases habs : self.date_column ∈ data.columns <;>
    by_cases hnd : (data.colValues self.date_column).Nodup <;>
      simp [validate_date_col, habs, hnd]

/-- C6 witness: a table whose date column repeats a value makes the validator
raise `DuplicateValues`; distinct values make it return. -/
theorem C6_witness :
    validate_date_col ⟨"d"⟩ ⟨[("d", [1, 1])]⟩ =
      .raised .duplicateValues (⟨"d"⟩, ⟨[("d", [1, 1])]⟩) ∧
    validate_date_col ⟨"d"⟩ ⟨[("d", [1, 2])]⟩ = .ok (⟨"d"⟩, ⟨[("d", [1, 2])]⟩) :=
  ⟨((C6_validate_date_col_cases ⟨"d"⟩ ⟨[("d", [1, 1])]⟩).2.1 (by decide)).mpr
      (by decide),
   (C6_validate_date_col_cases ⟨"d"⟩ ⟨[("d", [1, 2])]⟩).2.2 (by decide) (by decide)⟩

/-- C7: `validate_control_columns` returns at once when the attribute is
`None`; otherwise it performs the channel validator's structural checks —
invalid type, empty collection, missing column, duplicate names — and, these
passed, returns normally for every table, negative values included, since no
value check exists. -/
theorem C7_validate_control_columns_cases (self : ValidateControlColumns)
    (data : DataFrame) :
    (self.control_columns = none →
      validate_control_columns self data = .ok (self, data)) ∧
    (∀ cc, self.control_columns = some cc →
      (cc.isListOrTuple = false →
        validate_control_columns self data = .raised .invalidType (self, data)) ∧
      (cc.isListOrTuple = true → cc.elems.length = 0 →
        validate_control_columns self data =
          .raised .emptyCollection (self, data)) ∧
      (cc.isListOrTuple = true → cc.elems.length ≠ 0 →
        (∃ c ∈ cc.elems, c ∉ data.columns) →
        validate_control_columns self data =
          .raised .missingColumn (self, data)) ∧
      (cc.isListOrTuple = true → cc.elems.length ≠ 0 →
        (∀ c ∈ cc.elems, c ∈ data.columns) → ¬ cc.elems.Nodup →
        validate_control_columns self data =
          .raised .duplicateValues (self, data)) ∧
      (cc.isListOrTuple = true → cc.elems.length ≠ 0 →
        (∀ c ∈ cc.elems, c ∈ data.columns) → cc.elems.Nodup →
        validate_control_columns self data = .ok (self, data))) := by
  constructor
  · intro h
    simp [validate_control_columns, h]
  · intro cc hcc
    refine ⟨?_, ?_, ?_, ?_, ?_⟩
    · intro h1
      simp [validate_control_columns, hcc, h1]
    · intro h1 h2
      simp [validate_control_columns, hcc, h1, h2]
    · intro h1 h2 hmiss
      have hnall : ¬ (∀ c ∈ cc.elems, c ∈ data.columns) := by
        obtain ⟨c, hc, hnc⟩ := hmiss
        exact fun hall => hnc (hall c hc)
      simp only [validate_control_columns, hcc]
      rw [if_neg (not_not_intro h1), if_neg h2, if_pos hnall]
    · intro h1 h2 hall hdup
      simp only [validate_control_columns, hcc]
      rw [if_neg (not_not_intro h1), if_neg h2, if_neg (not_not_intro hall),
        if_pos hdup]
    · intro h1 h2 hall hnd
      simp only [validate_control_columns, hcc]
      rw [if_neg (not_not_intro h1), if_neg h2, if_neg (not_not_intro hall),
        if_neg (not_not_intro hnd)]

/-- C7 witness: with `control_columns = None` validation succeeds trivially,
and a structurally valid list succeeds even though the table's values in that
column are negative. -/
theorem C7_witness :
    validate_control_columns ⟨none⟩ ⟨[("a", [-5])]⟩ =
      .ok (⟨none⟩, ⟨[("a", [-5])]⟩) ∧
    validate_control_columns ⟨some (.pylist ["a"])⟩ ⟨[("a", [-5])]⟩ =
      .ok (⟨some (.pylist ["a"])⟩, ⟨[("a", [-5])]⟩) :=
  ⟨(C7_validate_control_columns_cases ⟨none⟩ ⟨[("a", [-5])]⟩).1 rfl,
   (((C7_validate_control_columns_cases ⟨some (.pylist ["a"])⟩
        ⟨[("a", [-5])]⟩).2 (.pylist ["a"]) rfl).2.2.2.2
      (by decide) (by decide) (by decide) (by decide))⟩

/-- C9: every validator leaves the host object and the table exactly as it
found them, whether it returns or raises — raising is the only effect. -/
theorem C9_validators_preserve_state (t : ValidateTargetColumn)
    (dt : ValidateDateColumn) (ch : ValidateChannelColumns)
    (co : ValidateControlColumns) (data : DataFrame) :
    (validate_target t data).state = (t, data) ∧
    (validate_date_col dt data).state = (dt, data) ∧
    (validate_channel_columns ch data).state = (ch, data) ∧
    (validate_control_columns co data).state = (co, data) := by
  refine ⟨?_, ?_, ?_, ?_⟩
  · unfold validate_target
    split <;> rfl
  · unfold validate_date_col
    split
    · rfl
    split <;> rfl
  · unfold validate_channel_columns
    split
    · rfl
    split
    · rfl
    split
    · rfl
    split
    · rfl
    split <;> rfl
  · unfold validate_control_columns
    split
    · rfl
    split
    · rfl
    split
    · rfl
    split
    · rfl
    split <;> rfl

/-- C1: evaluation of `validate_channel_columns` at a fully valid input — a
one-element channel list naming a present column whose values are all
non-negative.  The call raises nonetheless: the per-column Series produced by
`(data[cols] < 0).any()` cannot be converted to a Bool by the `if`, so pandas
raises `ValueError` before the negative-value test can decide anything, and
the claimed "no error" outcome is unreachable for every list input. -/
theorem C1_valid_input_still_raises :
    validate_channel_columns ⟨.pylist ["a"]⟩ ⟨[("a", [0, 1])]⟩ =
      .raised .ambiguousTruthValue (⟨.pylist ["a"]⟩, ⟨[("a", [0, 1])]⟩) := by
  decide

/-- C2: the channel validator checks its five conditions in the fixed source
order and raises at the first violated one — invalid type, then empty
sequence, then a named column missing from the table, then repeated names,
then negative values (where the raise is pandas's, see C1); in particular a
sequence that is both duplicated and missing a column yields the
missing-column error. -/
theorem C2_channel_check_order (self : ValidateChannelColumns)
    (data : DataFrame) :
    (self.channel_columns.isListOrTuple = false →
      validate_channel_columns self data = .raised .invalidType (self, data)) ∧
    (self.channel_columns.isListOrTuple = true →
      self.channel_columns.elems.length = 0 →
      validate_channel_columns self data =
        .raised .emptyCollection (self, data)) ∧
    (self.channel_columns.isListOrTuple = true →
      self.channel_columns.elems.length ≠ 0 →
      (∃ c ∈ self.channel_columns.elems, c ∉ data.columns) →
      validate_channel_columns self data =
        .raised .missingColumn (self, data)) ∧
    (self.channel_columns.isListOrTuple = true →
      self.channel_columns.elems.length ≠ 0 →
      (∀ c ∈ self.channel_columns.elems, c ∈ data.columns) →
      ¬ self.channel_columns.elems.Nodup →
      validate_channel_columns self data =
        .raised .duplicateValues (self, data)) ∧
    (self.channel_columns.isListOrTuple = true →
      self.channel_columns.elems.length ≠ 0 →
      (∀ c ∈ self.channel_columns.elems, c ∈ data.columns) →
      self.channel_columns.elems.Nodup →
      (∃ c ∈ self.channel_columns.elems, ∃ v ∈ data.colValues c, v < 0) →
      ∃ e, validate_channel_columns self data = .raised e (self, data)) := by
  refine ⟨?_, ?_, ?_, ?_, ?_⟩
  · intro h1
    simp [validate_channel_columns, h1]
  · intro h1 h2
    simp [validate_channel_columns, h1, h2]
  · intro h1 h2 hmiss
    have hnall : ¬ (∀ c ∈ self.channel_columns.elems, c ∈ data.columns) := by
      obtain ⟨c, hc, hnc⟩ := hmiss
      exact fun hall => hnc (hall c hc)
    unfold validate_channel_columns
    rw [if_neg (not_not_intro h1), if_neg h2, if_pos hnall]
  · intro h1 h2 hall hdup
    unfold validate_channel_columns
    rw [if_neg (not_not_intro h1), if_neg h2, if_neg (not_not_intro hall),
      if_pos hdup]
  · intro h1 h2 hall hnd _hneg
    unfold validate_channel_columns
    rw [if_neg (not_not_intro h1), if_neg h2, if_neg (not_not_intro hall),
      if_neg (not_not_intro hnd)]
    cases hcc : self.channel_columns with
    | pylist xs => exact ⟨.ambiguousTruthValue, rfl⟩
    | pytuple xs => exact ⟨.keyError, rfl⟩
    | notSeq =>
      rw [hcc] at h1
      exact absurd h1 (by decide)

/-- C2 witness: the channel list `["a", "a", "b"]` both repeats `"a"` and
names the absent column `"b"`; the validator reports the missing column, not
the duplicate. -/
theorem C2_witness :
    validate_channel_columns ⟨.pylist ["a", "a", "b"]⟩ ⟨[("a", [1])]⟩ =
      .raised .missingColumn (⟨.pylist ["a", "a", "b"]⟩, ⟨[("a", [1])]⟩) :=
  (C2_channel_check_order ⟨.pylist ["a", "a", "b"]⟩ ⟨[("a", [1])]⟩).2.2.1
    (by decide) (by decide) ⟨"b", by decide, by decide⟩

theorem lookup_setTag_self (d : List (String × Bool)) (k : String) (v : Bool) :
    (setTag d k v).lookup k = some v := by
  induction d with
  | nil => simp [setTag, List.lookup]
  | cons kv rest ih =>
    obtain ⟨k0, v0⟩ := kv
    by_cases h : k0 = k
    · simp only [setTag, if_pos h]
      rw [lookup_cons_help, if_pos rfl]
    · simp only [setTag, if_neg h]
      rw [lookup_cons_help, if_neg (fun he => h he.symm)]
      exact ih

theorem lookup_setTag_other (d : List (String × Bool)) (k : String) (v : Bool)
    (x : String) (hx : x ≠ k) : (setTag d k v).lookup x = d.lookup x := by
  induction d with
  | nil =>
    rw [show setTag [] k v = [(k, v)] from rfl, lookup_cons_help, if_neg hx]
  | cons kv rest ih =>
    obtain ⟨k0, v0⟩ := kv
    by_cases h : k0 = k
    · simp only [setTag, if_pos h]
      rw [lookup_cons_help, lookup_cons_help, if_neg hx,
        if_neg (fun he => hx (he.trans h))]
    · simp only [setTag, if_neg h]
      rw [lookup_cons_help, lookup_cons_help]
      by_cases hx0 : x = k0
      · rw [if_pos hx0, if_pos hx0]
      · rw [if_neg hx0, if_neg hx0]
        exact ih

theorem setTag_idem (d : List (String × Bool)) (k : String) (v : Bool) :
    setTag (setTag d k v) k v = setTag d k v := by
  induction d with
  | nil => simp [setTag]
  | cons kv rest ih =>
    obtain ⟨k0, v0⟩ := kv
    by_cases h : k0 = k
    · simp only [setTag, if_pos h]
      simp [setTag]
    · simp only [setTag, if_neg h]
      simp only [setTag, if_neg h, ih]

/-- C10: `validation_method` returns the same function object (its identity is
untouched), sets the `validation` tag to `True`, leaves every other tag entry
exactly as it was (including when no `_tags` dict existed and an empty one is
created), and applying it a second time changes nothing at all. -/
theorem C10_validation_method_tags (m : Method) (k : String)
    (hk : k ≠ "validation") :
    (validation_method m).fnId = m.fnId ∧
    ((validation_method m).tags.getD []).lookup "validation" = some true ∧
    ((validation_method m).tags.getD []).lookup k = (m.tags.getD []).lookup k ∧
    validation_method (validation_method m) = validation_method m := by
  refine ⟨rfl, ?_, ?_, ?_⟩
  · cases htags : m.tags with
    | none => simp [validation_method, htags, lookup_setTag_self]
    | some d => simp [validation_method, htags, lookup_setTag_self]
  · cases htags : m.tags with
    | none => simp [validation_method, htags, lookup_setTag_other _ _ _ _ hk]
    | some d => simp [validation_method, htags, lookup_setTag_other _ _ _ _ hk]
  · cases htags : m.tags with
    | none => simp [validation_method, htags, setTag_idem]
    | some d => simp [validation_method, htags, setTag_idem]

/-- C10 witness: a concrete function object with one pre-existing tag — the
identity, the preserved tag, the new `validation` tag and idempotence, all at
once. -/
theorem C10_witness :
    (validation_method ⟨7, some [("other", false)]⟩).fnId = 7 ∧
    ((validation_method ⟨7, some [("other", false)]⟩).tags.getD []).lookup
        "validation" = some true ∧
    ((validation_method ⟨7, some [("other", false)]⟩).tags.getD []).lookup
        "other" = some false ∧
    validation_method (validation_method ⟨7, some [("other", false)]⟩) =
      validation_method ⟨7, some [("other", false)]⟩ := by
  obtain ⟨h1, h2, h3, h4⟩ :=
    C10_validation_method_tags ⟨7, some [("other", false)]⟩ "other" (by decide)
  exact ⟨h1, h2, by rw [h3]; rfl, h4⟩

/-- C3: resolving each of the seven canonical names yields the
default-constructed transform of the corresponding curve; resolving an
already-constructed transform returns it unchanged; resolving any
unregistered string fails with an `UnknownTransform` error that enumerates
exactly the seven valid names. -/
theorem C3_registry_resolution (t : SaturationTransform) (s : String)
    (hs : s ∉ ["logistic", "inverse_scaled_logistic", "tanh", "tanh_baselined",
      "michaelis_menten", "hill", "root"]) :
    (∀ c : SaturationCurve,
      _get_saturation_function (.name (curveName c)) = .ok (defaultTransform c) ∧
      (defaultTransform c).curve = c) ∧
    _get_saturation_function (.inst t) = .ok t ∧
    _get_saturation_function (.name s) =
      .error (.unknownTransform s ["logistic", "inverse_scaled_logistic",
        "tanh", "tanh_baselined", "michaelis_menten", "hill", "root"]) := by
  refine ⟨?_, rfl, ?_⟩
  · intro c
    cases c <;> exact ⟨rfl, rfl⟩
  · have hkeys : saturationLookup.map Prod.fst =
        ["logistic", "inverse_scaled_logistic", "tanh", "tanh_baselined",
         "michaelis_menten", "hill", "root"] := rfl
    have hnone : saturationLookup.lookup s = none :=
      lookup_eq_none_of_not_mem_keys s saturationLookup (by rw [hkeys]; exact hs)
    simp [_get_saturation_function, hnone, hkeys]

/-- C3 witness: one registered name resolves to its default transform, an
instance passes through unchanged, and the string "unknown" fails with the
error listing all seven names. -/
theorem C3_witness :
    _get_saturation_function (.name "michaelis_menten") =
      .ok (defaultTransform .michaelis_menten) ∧
    _get_saturation_function (.inst (defaultTransform .logistic)) =
      .ok (defaultTransform .logistic) ∧
    _get_saturation_function (.name "unknown") =
      .error (.unknownTransform "unknown" ["logistic",
        "inverse_scaled_logistic", "tanh", "tanh_baselined",
        "michaelis_menten", "hill", "root"]) := by
  obtain ⟨hall, hinst, herr⟩ :=
    C3_registry_resolution (defaultTransform .logistic) "unknown" (by decide)
  exact ⟨(hall .michaelis_menten).1, hinst, herr⟩

theorem lookup_map_serialized (ser : List (String × SerializedPrior))
    (p : String) (hp : ∀ kv ∈ ser, kv.1 ≠ p) :
    (ser.map (fun kv => (kv.1, priorFromSerialized kv.2))).lookup p = none := by
  induction ser with
  | nil => rfl
  | cons kv rest ih =>
    rw [List.map_cons, lookup_cons_help,
      if_neg (Ne.symm (hp kv (List.mem_cons_self kv rest)))]
    exact ih (fun kv2 h2 => hp kv2 (List.mem_cons_of_mem kv h2))

theorem lookup_mergePriors_of_not_mem (defaults ov : List (String × Prior))
    (p : String) (hp : ov.lookup p = none) :
    (mergePriors defaults ov).lookup p = defaults.lookup p := by
  induction defaults with
  | nil => rfl
  | cons kv rest ih =>
    simp only [mergePriors, List.map_cons]
    cases hk : ov.lookup kv.1 with
    | some q =>
      rw [lookup_cons_help, show kv = (kv.1, kv.2) from rfl, lookup_cons_help]
      by_cases hpk : p = kv.1
      · rw [hpk] at hp
        rw [hp] at hk
        cases hk
      · rw [if_neg hpk, if_neg hpk]
        exact ih
    | none =>
      rw [show kv = (kv.1, kv.2) from rfl, lookup_cons_help, lookup_cons_help]
      by_cases hpk : p = kv.1
      · rw [if_pos hpk, if_pos hpk]
      · rw [if_neg hpk, if_neg hpk]
        exact ih

/-- C5: for every registered curve and every serialized prior-override
mapping, `saturation_from_dict` yields exactly the transform constructed
directly from the deserialized priors — same curve, same prior mapping, same
prefix — and every parameter the mapping does not mention keeps its default
prior. -/
theorem C5_from_dict_round_trip (c : SaturationCurve)
    (ser : List (String × SerializedPrior)) (p : String)
    (hp : ∀ kv ∈ ser, kv.1 ≠ p) :
    saturation_from_dict ⟨curveName c, ser⟩ =
      .ok (mkTransform c
        (ser.map (fun kv => (kv.1, priorFromSerialized kv.2)))) ∧
    (mkTransform c (ser.map (fun kv => (kv.1, priorFromSerialized kv.2)))).curve
      = c ∧
    (mkTransform c
        (ser.map (fun kv => (kv.1, priorFromSerialized kv.2)))).prefixName =
      "saturation" ∧
    (mkTransform c
        (ser.map (fun kv => (kv.1, priorFromSerialized kv.2)))).priors.lookup p =
      (defaultPriors c).lookup p := by
  refine ⟨?_, rfl, rfl, ?_⟩
  · cases c <;> rfl
  · exact lookup_mergePriors_of_not_mem _ _ _ (lookup_map_serialized ser p hp)

/-- C5 witness: overriding only `alpha` of `michaelis_menten` round-trips to
the directly constructed transform, and the unmentioned `lam` keeps its
default prior. -/
theorem C5_witness :
    saturation_from_dict
      ⟨"michaelis_menten",
       [("alpha", ⟨"HalfNormal", [("sigma", .num 1)]⟩)]⟩ =
      .ok (mkTransform .michaelis_menten
        [("alpha", ⟨"HalfNormal", [("sigma", .num 1)]⟩)]) ∧
    (mkTransform .michaelis_menten
        [("alpha", ⟨"HalfNormal", [("sigma", .num 1)]⟩)]).priors.lookup "lam" =
      (defaultPriors .michaelis_menten).lookup "lam" := by
  obtain ⟨h1, _h2, _h3, h4⟩ :=
    C5_from_dict_round_trip .michaelis_menten
      [("alpha", ⟨"HalfNormal", [("sigma", .num 1)]⟩)] "lam" (by decide)
  exact ⟨h1, h4⟩

/-- C4: whenever the parameter dataset holds at least the transform's own
parameter variables, `sample_curve` succeeds — unrelated extra variables are
ignored — and the output carries no dimension that is attached only to
unrelated variables, while every dimension attached to one of the transform's
own parameter variables appears on the output with its coordinate labels
taken unchanged from the input dataset. -/
theorem C4_sample_curve_dimension_filtering (t : SaturationTransform)
    (P : Dataset) (hmin : ∀ v ∈ variableMappingValues t, v ∈ P.varNames) :
    sample_curve t P 1 = .ok (curveDataArray t P) ∧
    (∀ d, d ≠ "x" → (∀ kv ∈ relevantVars t P, d ∉ kv.2) →
      d ∉ (curveDataArray t P).dims ∧
      (curveDataArray t P).coords.lookup d = none) ∧
    (∀ d kv, kv ∈ relevantVars t P → d ∈ kv.2 →
      d ∈ (curveDataArray t P).dims ∧
      (curveDataArray t P).coords.lookup d = P.coords.lookup d) := by
  refine ⟨?_, ?_, ?_⟩
  · unfold sample_curve
    rw [if_neg (by decide), if_pos hmin]
  · intro d hdx hdun
    have hnd : d ∉ curveDims t P := by
      intro hmem
      obtain ⟨kv, hkv, hd⟩ :=
        List.mem_flatMap.mp (List.mem_dedup.mp hmem)
      exact hdun kv hkv hd
    constructor
    · simp only [curveDataArray, List.mem_append, List.mem_singleton]
      rintro (h | h)
      · exact hnd h
      · exact hdx h
    · exact lookup_keyed_filterMap_of_not_mem _ _ _ hnd
  · intro d kv hkv hd
    have hmemdims : d ∈ curveDims t P :=
      List.mem_dedup.mpr (List.mem_flatMap.mpr ⟨kv, hkv, hd⟩)
    constructor
    · simp only [curveDataArray, List.mem_append]
      exact Or.inl hmemdims
    · exact lookup_keyed_filterMap_of_mem _ _ _ (List.nodup_dedup _) hmemdims

/-- C4 witness: the Michaelis-Menten transform on the mock dataset — the call
succeeds although `another_random_variable` is unrelated, `random_dim` (the
dimension only that variable carries) is absent from the output, and the
`channel` dimension of the transform's own variables keeps its coordinates
`C1, C2, C3`. -/
theorem C4_witness :
    sample_curve (defaultTransform .michaelis_menten) mockMentenParameters 1 =
      .ok (curveDataArray (defaultTransform .michaelis_menten)
        mockMentenParameters) ∧
    "random_dim" ∉
      (curveDataArray (defaultTransform .michaelis_menten)
        mockMentenParameters).dims ∧
    (curveDataArray (defaultTransform .michaelis_menten)
        mockMentenParameters).coords.lookup "channel" =
      some [.str "C1", .str "C2", .str "C3"] := by
  obtain ⟨h1, h2, h3⟩ :=
    C4_sample_curve_dimension_filtering (defaultTransform .michaelis_menten)
      mockMentenParameters (by decide)
  refine ⟨h1, (h2 "random_dim" (by decide) (by decide)).1, ?_⟩
  rw [(h3 "channel" ("saturation_alpha", ["chain", "draw", "channel"])
    (by decide) (by decide)).2]
  decide
